import Mathlib

/-!
Shallow embedding of the blogging API's policy layer: blog visibility and
ownership authorization, query building (filter/sort/pagination), the blog
lifecycle operations (create, update, state change, view recording), and the
signin / optional-authentication paths.

Sources embedded: the blog controller (getBlog, getPublishedBlogs,
getUserBlogs, createBlog, updateBlog, updateBlogState), the Blog schema's
pre-save reading-time hook, the auth controller's signin, and the
optionalAuth middleware.  The external document store is modelled as a list
of blogs; store-level find/save/count are the list operations below.
-/

namespace BloggingApi

/-- The blog state enum of the Blog schema: {draft, published}. -/
inductive BlogState where
  | draft
  | published
deriving DecidableEq

/-- String form of a state, as stored ("draft" / "published"). -/
def stateStr : BlogState → String
  | .draft => "draft"
  | .published => "published"

/-- Parse a raw state string against the schema enum; none when invalid. -/
def parseState (s : String) : Option BlogState :=
  if s = "draft" then some BlogState.draft
  else if s = "published" then some BlogState.published
  else none

abbrev UserId := Nat
abbrev BlogId := Nat

/-- A user record (User model): display name parts, unique email, hashed
credential secret.  The id stands for the store's ObjectId. -/
structure User where
  id : UserId
  first_name : String
  last_name : String
  email : String
  password : String
deriving DecidableEq

/-- A blog document per the Blog schema.  createdAt is the store-maintained
timestamp (modelled as a number so the createdAt sort is meaningful). -/
structure Blog where
  id : BlogId
  title : String
  description : String
  author : UserId
  state : BlogState
  read_count : Nat
  reading_time : Nat
  tags : List String
  body : String
  createdAt : Nat
deriving DecidableEq

/-- The external document store's blog collection. -/
abbrev Store := List Blog

/-- Store lookup by id (Blog.findById): the first document with that id,
or none when absent. -/
def findById (s : Store) (id : BlogId) : Option Blog :=
  s.find? (fun b => b.id == id)

/-- Persisting a document (save / findByIdAndUpdate): every stored document
with the same id is replaced by the new version. -/
def saveBlog (s : Store) (b : Blog) : Store :=
  s.map (fun x => if x.id == b.id then b else x)

/-- Number of maximal non-whitespace runs in a character list, carrying a
flag for being inside a run. -/
def tokenCountAux : List Char → Bool → Nat
  | [], _ => 0
  | c :: rest, inTok =>
    if c.isWhitespace then tokenCountAux rest false
    else (if inTok then 0 else 1) + tokenCountAux rest true

/-- Number of maximal non-whitespace runs (the tokens of split(/\s+/) on a
trimmed string). -/
def tokenCount (l : List Char) : Nat := tokenCountAux l false

/-- Word count as the pre-save hook computes it:
body.trim().split(/\s+/).length.  In JS, splitting the empty string yields
one (empty) token, so a body that trims to nothing counts as 1; otherwise
the count is the number of maximal non-whitespace runs. -/
def wordCount (body : String) : Nat :=
  if body.data.all (fun c => c.isWhitespace) then 1
  else tokenCount body.data

/-- Reading time: Math.ceil(wordCount / 200) minutes. -/
def readingTime (body : String) : Nat :=
  (wordCount body + 199) / 200

/-- The schema's pre("save") hook: recompute reading_time from body, but
only when the body path is modified on this save. -/
def applySaveHook (b : Blog) (bodyModified : Bool) : Blog :=
  if bodyModified then { b with reading_time := readingTime b.body } else b

/-- Outcome of the single-blog fetch (GET /api/blogs/:id). -/
inductive GetBlogResult where
  | notFound
  | forbidden
  | ok (b : Blog)
deriving DecidableEq

/-- getBlog: fetch by id (404 when absent); a non-published blog is
forbidden unless the requester is its author; on success read_count is
incremented and the document saved (the save hook sees body unmodified). -/
def getBlog (requester : Option UserId) (id : BlogId) (s : Store) :
    GetBlogResult × Store :=
  match findById s id with
  | none => (GetBlogResult.notFound, s)
  | some blog =>
    if blog.state ≠ BlogState.published ∧ requester ≠ some blog.author then
      (GetBlogResult.forbidden, s)
    else
      let updated := applySaveHook { blog with read_count := blog.read_count + 1 } false
      (GetBlogResult.ok updated, saveBlog s updated)

/-- n sequential single-blog fetches, threading the store. -/
def iterGetBlog (requester : Option UserId) (id : BlogId) : Nat → Store → Store
  | 0, s => s
  | n + 1, s => iterGetBlog requester id n (getBlog requester id s).2

/-- A partial-field update body (PUT /api/blogs/:id).  The controller passes
the request body through unfiltered, so author, read_count and state are
legal patch fields; state arrives as a raw string checked by the update
validators against the schema enum. -/
structure BlogPatch where
  title : Option String
  description : Option String
  tags : Option (List String)
  body : Option String
  state : Option String
  author : Option UserId
  read_count : Option Nat
deriving DecidableEq

/-- The empty patch. -/
def emptyPatch : BlogPatch :=
  { title := none, description := none, tags := none, body := none,
    state := none, author := none, read_count := none }

/-- runValidators on the update path: the only validated constraint a patch
can break in this model is the state enum. -/
def validatePatch (p : BlogPatch) : Bool :=
  match p.state with
  | none => true
  | some raw => (parseState raw).isSome

/-- Application of a patch by findByIdAndUpdate: each present field
overwrites the stored one, absent fields are untouched.  The pre("save")
hook does not run on this path, so reading_time is never recomputed here. -/
def applyPatch (b : Blog) (p : BlogPatch) : Blog :=
  { b with
    title := p.title.getD b.title,
    description := p.description.getD b.description,
    tags := p.tags.getD b.tags,
    body := p.body.getD b.body,
    state := (p.state.bind parseState).getD b.state,
    author := p.author.getD b.author,
    read_count := p.read_count.getD b.read_count }

/-- Outcome of a mutation endpoint (update / state change). -/
inductive MutResult where
  | notFound
  | forbidden
  | badRequest
  | ok (b : Blog)
deriving DecidableEq

/-- updateBlog: 404 when absent, 403 when the requester is not the author,
then findByIdAndUpdate(req.body) with validators; the updated document is
returned and persisted.  No field filtering happens, and the save hook is
bypassed. -/
def updateBlog (requester : UserId) (id : BlogId) (p : BlogPatch) (s : Store) :
    MutResult × Store :=
  match findById s id with
  | none => (MutResult.notFound, s)
  | some blog =>
    if blog.author ≠ requester then (MutResult.forbidden, s)
    else if validatePatch p then
      (MutResult.ok (applyPatch blog p), saveBlog s (applyPatch blog p))
    else (MutResult.badRequest, s)

/-- updateBlogState: the raw state is checked against the allow-list before
anything else; then fetch (404), ownership (403), then the state is assigned
and the document saved (the hook sees body unmodified). -/
def updateBlogState (requester : UserId) (id : BlogId) (newState : String)
    (s : Store) : MutResult × Store :=
  if ¬ (newState = "draft" ∨ newState = "published") then (MutResult.badRequest, s)
  else
    match findById s id with
    | none => (MutResult.notFound, s)
    | some blog =>
      if blog.author ≠ requester then (MutResult.forbidden, s)
      else
        (MutResult.ok (applySaveHook { blog with state := (parseState newState).getD blog.state } false),
         saveBlog s (applySaveHook { blog with state := (parseState newState).getD blog.state } false))

/-- The success path of Blog.create: a new document enters in state draft
with read_count 0; on a new document every path is modified, so the save
hook computes reading_time from the body.  id and createdAt come from the
store layer. -/
def createBlog (author : UserId) (id : BlogId) (createdAt : Nat)
    (title description : String) (tags : List String) (body : String)
    (s : Store) : Blog × Store :=
  let b := applySaveHook
    { id := id, title := title, description := description, author := author,
      state := BlogState.draft, read_count := 0, reading_time := 0,
      tags := tags, body := body, createdAt := createdAt } true
  (b, b :: s)

/-- Boolean list-prefix test on characters. -/
def isPrefixList : List Char → List Char → Bool
  | [], _ => true
  | _ :: _, [] => false
  | a :: as, b :: bs => a == b && isPrefixList as bs

/-- Substring containment on character lists (needle, haystack order:
first the haystack, then the needle). -/
def containsSub : List Char → List Char → Bool
  | [], needle => needle.isEmpty
  | c :: rest, needle => isPrefixList needle (c :: rest) || containsSub rest needle

/-- Case-insensitive substring match, the model of a RegExp(sub, "i")
filter: both sides lowercased, then containment. -/
def strContainsCI (hay sub : String) : Bool :=
  containsSub (hay.data.map Char.toLower) (sub.data.map Char.toLower)

/-- Split a string on a separator character, keeping empty segments, as
JS String.split does. -/
def splitOnCharAux (sep : Char) : List Char → List Char → List String
  | [], acc => [String.mk acc.reverse]
  | c :: rest, acc =>
    if c == sep then String.mk acc.reverse :: splitOnCharAux sep rest []
    else splitOnCharAux sep rest (c :: acc)

/-- JS s.split(sep) for a one-character separator. -/
def splitOnChar (s : String) (sep : Char) : List String :=
  splitOnCharAux sep s.data []

/-- Boolean string-prefix test (JS String.startsWith). -/
def strStartsWith (s pre : String) : Bool :=
  isPrefixList pre.data s.data

/-- JS truthiness of an optional query-parameter string: an absent or empty
parameter does not activate its filter. -/
def present (o : Option String) : Option String :=
  match o with
  | none => none
  | some s => if s = "" then none else some s

/-- parseInt(x) || d: an absent or unparseable parameter (NaN) and the
value 0 are falsy and give the default; every other integer — negative ones
included — is kept. -/
def resolveParam (p : Option Int) (d : Int) : Int :=
  match p with
  | none => d
  | some v => if v = 0 then d else v

/-- Math.ceil(total / limit) of the listing responses, with JS number
division modelled as exact rational division. -/
def listPages (total : Nat) (limit : Int) : Int :=
  ⌈(total : ℚ) / (limit : ℚ)⌉

/-- The sort keys of the public listing's order_by allow-list. -/
inductive SortKey where
  | read_count
  | reading_time
  | createdAt
deriving DecidableEq

/-- The field a sort key reads. -/
def sortVal (k : SortKey) (b : Blog) : Nat :=
  match k with
  | .read_count => b.read_count
  | .reading_time => b.reading_time
  | .createdAt => b.createdAt

/-- Building the sort option of the public listing: a present order_by is
looked up in the allow-list (unknown values leave the sort option empty — no
sort at all); an absent one falls back to createdAt.  Direction is always
descending. -/
def buildSortOption (orderBy : Option String) : Option SortKey :=
  match present orderBy with
  | some v =>
    if v = "read_count" then some SortKey.read_count
    else if v = "reading_time" then some SortKey.reading_time
    else if v = "createdAt" then some SortKey.createdAt
    else none
  | none => some SortKey.createdAt

/-- Executing a sort option on the store's result list: no option means the
store's natural order; a key sorts by that field descending.  Tie order is a
deterministic choice of the model (the store guarantees none). -/
def applySort (o : Option SortKey) (l : List Blog) : List Blog :=
  match o with
  | none => l
  | some k => List.insertionSort (fun a b => sortVal k b ≤ sortVal k a) l

/-- A list sorted descending on a field: every earlier element reads at
least as large as every later one. -/
def sortedDescBy (f : Blog → Nat) (l : List Blog) : Prop :=
  l.Pairwise (fun a b => f b ≤ f a)

instance instDecidableSortedDescBy (f : Blog → Nat) (l : List Blog) :
    Decidable (sortedDescBy f l) :=
  inferInstanceAs (Decidable (l.Pairwise (fun a b => f b ≤ f a)))

/-- Query parameters of the public listing (GET /api/blogs). -/
structure PublicQuery where
  page : Option Int
  limit : Option Int
  order_by : Option String
  title : Option String
  tags : Option String
  author : Option String
deriving DecidableEq

/-- The public query with no parameter set. -/
def emptyPublicQuery : PublicQuery :=
  { page := none, limit := none, order_by := none, title := none,
    tags := none, author := none }

/-- Resolving the author query parameter: User.findOne picks the first user
whose first or last name case-insensitively contains the substring; when no
user matches, no author constraint is added to the query at all. -/
def resolveAuthorFilter (users : List User) (authorQ : Option String) :
    Option UserId :=
  match present authorQ with
  | none => none
  | some sub =>
    (users.find? (fun u => strContainsCI u.first_name sub
      || strContainsCI u.last_name sub)).map User.id

/-- The store predicate of the public listing: state published, plus the
optional author, title (case-insensitive substring) and tags (comma list,
set intersection) constraints. -/
def publicQueryPred (authorF : Option UserId) (titleF tagsF : Option String)
    (b : Blog) : Bool :=
  (b.state == BlogState.published)
  && (match authorF with | none => true | some uid => b.author == uid)
  && (match titleF with | none => true | some t => strContainsCI b.title t)
  && (match tagsF with
      | none => true
      | some ts => (splitOnChar ts ',').any (fun t => b.tags.contains t))

/-- Shape of a listing response: count is the number of items in the
returned page, total the number of matching documents, pages the
Math.ceil(total / limit) value. -/
structure ListResponse where
  count : Nat
  total : Nat
  page : Int
  pages : Int
  data : List Blog
deriving DecidableEq

/-- getPublishedBlogs: resolve page/limit with their falsy defaults, build
the published-only predicate with the optional author/title/tags filters,
sort per order_by, then skip/limit the result.  Negative skip or limit
values are handed to the store unchanged; the model reads an empty window
for them. -/
def getPublishedBlogs (users : List User) (q : PublicQuery) (s : Store) :
    ListResponse :=
  let page := resolveParam q.page 1
  let limit := resolveParam q.limit 20
  let skip := (page - 1) * limit
  let filtered := s.filter
    (publicQueryPred (resolveAuthorFilter users q.author) (present q.title) (present q.tags))
  let data := ((applySort (buildSortOption q.order_by) filtered).drop skip.toNat).take limit.toNat
  { count := data.length, total := filtered.length, page := page,
    pages := listPages filtered.length limit, data := data }

/-- Query parameters of the own-blogs listing (GET /api/blogs/user/me). -/
structure OwnQuery where
  page : Option Int
  limit : Option Int
  state : Option String
deriving DecidableEq

/-- getUserBlogs: restrict to the authenticated requester's blogs, narrowed
by the optional raw state filter (matched as a string against the stored
state), always sorted createdAt descending, then skip/limit. -/
def getUserBlogs (requester : UserId) (q : OwnQuery) (s : Store) :
    ListResponse :=
  let page := resolveParam q.page 1
  let limit := resolveParam q.limit 20
  let skip := (page - 1) * limit
  let filtered := s.filter (fun b => b.author == requester
    && (match present q.state with | none => true | some st => stateStr b.state == st))
  let data := ((applySort (some SortKey.createdAt) filtered).drop skip.toNat).take limit.toNat
  { count := data.length, total := filtered.length, page := page,
    pages := listPages filtered.length limit, data := data }

/-- Outcome of signin: a tagged failure carrying the HTTP status and message
the controller sends, or the signed-in user. -/
inductive SigninResult where
  | failure (status : Nat) (message : String)
  | success (u : User)
deriving DecidableEq

/-- signin: missing email or password is a 400; then the user is looked up
by email and the password verified (verify abstracts the bcrypt compare);
both an unknown email and a failed verification answer 401 with the same
"Invalid credentials" message. -/
def signin (verify : String → String → Bool) (users : List User)
    (email password : String) : SigninResult :=
  if email = "" ∨ password = "" then
    SigninResult.failure 400 "Please provide email and password"
  else
    match users.find? (fun u => u.email == email) with
    | none => SigninResult.failure 401 "Invalid credentials"
    | some u =>
      if verify password u.password then SigninResult.success u
      else SigninResult.failure 401 "Invalid credentials"

/-- optionalAuth: with no Bearer authorization header the request proceeds
anonymously; with one, the token after the first space is verified
(verifyToken abstracts jwt.verify composed with the user lookup id) and any
failure is swallowed — the request again proceeds anonymously.  The type
shows this middleware can never reject a request. -/
def optionalAuth (users : List User) (verifyToken : String → Option UserId)
    (authHeader : Option String) : Option UserId :=
  match authHeader with
  | none => none
  | some h =>
    if strStartsWith h "Bearer" then
      match verifyToken ((splitOnChar h ' ').getD 1 "") with
      | none => none
      | some uid => (users.find? (fun u => u.id == uid)).map User.id
    else none

/-- The public single-blog route: optionalAuth resolves the identity, then
getBlog runs with it. -/
def getBlogRoute (users : List User) (verifyToken : String → Option UserId)
    (authHeader : Option String) (id : BlogId) (s : Store) :
    GetBlogResult × Store :=
  getBlog (optionalAuth users verifyToken authHeader) id s

/-- A demonstration draft blog used as a concrete input in witnesses. -/
def demoBlogDraft : Blog :=
  { id := 1, title := "t", description := "", author := 1,
    state := BlogState.draft, read_count := 0, reading_time := 1,
    tags := [], body := "hello world", createdAt := 5 }

/-- A 201-word body: one over the 200 words/minute bucket, so its reading
time is 2 minutes. -/
def longBody : String := String.intercalate " " (List.replicate 201 "w")

/-- A store holding one blog created by user 1 with the 201-word body (so
its stored reading_time is the consistent value 2). -/
def demoStoreLong : Store := (createBlog 1 2 7 "long" "" [] longBody []).2

/-- A demonstration user whose names contain "lic" but not "zzz". -/
def demoUserAlice : User :=
  { id := 1, first_name := "Alice", last_name := "Smith",
    email := "alice@example.com", password := "hash1" }

/-- A published demo blog by user 1, earlier timestamp. -/
def pubBlogA : Blog :=
  { id := 10, title := "A", description := "", author := 1,
    state := BlogState.published, read_count := 0, reading_time := 1,
    tags := ["x"], body := "a", createdAt := 1 }

/-- A published demo blog by user 2, later timestamp. -/
def pubBlogB : Blog :=
  { id := 11, title := "B", description := "", author := 2,
    state := BlogState.published, read_count := 5, reading_time := 1,
    tags := ["z"], body := "b", createdAt := 2 }

/-- A third published demo blog, latest timestamp. -/
def pubBlogC : Blog :=
  { id := 12, title := "C", description := "", author := 1,
    state := BlogState.published, read_count := 2, reading_time := 3,
    tags := [], body := "c", createdAt := 3 }
/-- C9: both failure modes of signin with provided credentials — an email
matching no user, and a matching email with a failing password check —
produce the identical 401 "Invalid credentials" outcome, so the response
does not reveal which of the two checks failed. -/
theorem signin_undifferentiated (verify : String → String → Bool)
    (users : List User) (e1 p1 e2 p2 : String) (u : User)
    (he1 : e1 ≠ "") (hp1 : p1 ≠ "") (he2 : e2 ≠ "") (hp2 : p2 ≠ "")
    (h1 : users.find? (fun x => x.email == e1) = none)
    (h2 : users.find? (fun x => x.email == e2) = some u)
    (h3 : verify p2 u.password = false) :
    signin verify users e1 p1 = SigninResult.failure 401 "Invalid credentials"
    ∧ signin verify users e2 p2 = SigninResult.failure 401 "Invalid credentials"
    ∧ signin verify users e1 p1 = signin verify users e2 p2 := by
  have g1 : signin verify users e1 p1 = SigninResult.failure 401 "Invalid credentials" := by
    simp [signin, he1, hp1, h1]
  have g2 : signin verify users e2 p2 = SigninResult.failure 401 "Invalid credentials" := by
    simp [signin, he2, hp2, h2, h3]
  exact ⟨g1, g2, g1.trans g2.symm⟩

/-- Witness for C9 at concrete inputs: an unknown email and a wrong password
for the demo user both answer 401 "Invalid credentials", and the two
responses are equal. -/
theorem signin_undifferentiated_witness :
    signin (fun p h => p == "pw" && h == "hash1") [demoUserAlice] "n@x.y" "pw"
      = SigninResult.failure 401 "Invalid credentials"
    ∧ signin (fun p h => p == "pw" && h == "hash1") [demoUserAlice]
        "alice@example.com" "wrong"
      = SigninResult.failure 401 "Invalid credentials"
    ∧ signin (fun p h => p == "pw" && h == "hash1") [demoUserAlice] "n@x.y" "pw"
      = signin (fun p h => p == "pw" && h == "hash1") [demoUserAlice]
          "alice@example.com" "wrong" :=
  signin_undifferentiated (fun p h => p == "pw" && h == "hash1") [demoUserAlice]
    "n@x.y" "pw" "alice@example.com" "wrong" demoUserAlice
    (by decide) (by decide) (by decide) (by decide)
    (by decide) (by decide) (by decide)

/-- C10: on the optional-identity path a Bearer header whose token fails
verification is not rejected — the middleware resolves to the anonymous
identity, the single-blog route then behaves exactly as for an anonymous
request, and on a draft blog that is the Forbidden outcome (never an
Unauthenticated one; the middleware's type admits no rejection at all). -/
theorem optionalAuth_invalid_token (users : List User)
    (verifyToken : String → Option UserId) (h : String) (id : BlogId)
    (s : Store)
    (hb : strStartsWith h "Bearer" = true)
    (hv : verifyToken ((splitOnChar h ' ').getD 1 "") = none) :
    optionalAuth users verifyToken (some h) = none
    ∧ getBlogRoute users verifyToken (some h) id s = getBlog none id s
    ∧ (∀ blog, findById s id = some blog → blog.state = BlogState.draft →
        (getBlogRoute users verifyToken (some h) id s).1 = GetBlogResult.forbidden) := by
  have ha : optionalAuth users verifyToken (some h) = none := by
    rw [List.getD_eq_getElem?_getD] at hv
    simp [optionalAuth, hb, hv]
  have hroute : getBlogRoute users verifyToken (some h) id s = getBlog none id s := by
    simp [getBlogRoute, ha]
  refine ⟨ha, hroute, fun blog hf hd => ?_⟩
  rw [hroute]
  have hcond : blog.state ≠ BlogState.published ∧ (none : Option UserId) ≠ some blog.author :=
    ⟨by simp [hd], by simp⟩
  simp [getBlog, hf, hcond]

/-- Witness for C10 at concrete inputs: an expired token on the demo draft
yields the anonymous identity and the Forbidden outcome, even though the
draft belongs to a real user. -/
theorem optionalAuth_invalid_token_witness :
    optionalAuth [demoUserAlice] (fun _ => none) (some "Bearer bad.token") = none
    ∧ (getBlogRoute [demoUserAlice] (fun _ => none) (some "Bearer bad.token")
        1 [demoBlogDraft]).1 = GetBlogResult.forbidden :=
  ⟨(optionalAuth_invalid_token [demoUserAlice] (fun _ => none) "Bearer bad.token"
      1 [demoBlogDraft] (by decide) (by decide)).1,
   (optionalAuth_invalid_token [demoUserAlice] (fun _ => none) "Bearer bad.token"
      1 [demoBlogDraft] (by decide) (by decide)).2.2 demoBlogDraft
      (by decide) (by decide)⟩

end BloggingApi

namespace BloggingApi

theorem findById_some_id {s : Store} {id : BlogId} {b : Blog}
    (h : findById s id = some b) : b.id = id := by
  have := List.find?_some h
  simpa using this

theorem findById_saveBlog {s : Store} {id : BlogId} {blog : Blog}
    (h : findById s id = some blog) (b : Blog) (hid : b.id = blog.id) :
    findById (saveBlog s b) id = some b := by
  have hbid : blog.id = id := findById_some_id h
  induction s with
  | nil => simp [findById] at h
  | cons x xs ih =>
    by_cases hx : x.id = id
    · simp [findById, saveBlog, hx, hid, hbid]
    · have hx' : (x.id == id) = false := by simp [hx]
      have h' : findById xs id = some blog := by
        simpa [findById, List.find?, hx'] using h
      have ih' := ih h'
      have hxb : (x.id == b.id) = false := by
        simp [hid, hbid, hx]
      simpa [findById, saveBlog, List.find?, hx', hxb] using ih'

/-- On a visible blog, a fetch returns the bumped document and the store with
that document saved; nothing else about the document changes. -/
theorem getBlog_visible_eq {requester : Option UserId} {id : BlogId} {s : Store}
    {blog : Blog} (h : findById s id = some blog)
    (hv : blog.state = BlogState.published ∨ requester = some blog.author) :
    getBlog requester id s =
      (GetBlogResult.ok { blog with read_count := blog.read_count + 1 },
       saveBlog s { blog with read_count := blog.read_count + 1 }) := by
  have hcond : ¬ (blog.state ≠ BlogState.published ∧ requester ≠ some blog.author) := by
    rcases hv with hv | hv <;> simp [hv]
  simp [getBlog, h, hcond, applySaveHook]

/-- C1: the single-blog fetch yields NotFound for an absent id; for a present
blog it is Forbidden exactly when the blog is not published and the requester
(possibly anonymous) is not its author, and otherwise succeeds — so a draft
is visible to its author only, and a published blog to everyone. -/
theorem getBlog_access_policy (requester : Option UserId) (id : BlogId) (s : Store) :
    (findById s id = none → (getBlog requester id s).1 = GetBlogResult.notFound)
    ∧ (∀ blog, findById s id = some blog →
        (((getBlog requester id s).1 = GetBlogResult.forbidden) ↔
          (blog.state ≠ BlogState.published ∧ requester ≠ some blog.author))
        ∧ ((blog.state = BlogState.published ∨ requester = some blog.author) →
            (getBlog requester id s).1 =
              GetBlogResult.ok { blog with read_count := blog.read_count + 1 })) := by
  constructor
  · intro h
    simp [getBlog, h]
  · intro blog h
    constructor
    · by_cases hc : blog.state ≠ BlogState.published ∧ requester ≠ some blog.author
      · simp [getBlog, h, hc]
      · have hv : blog.state = BlogState.published ∨ requester = some blog.author := by
          by_contra hcon
          push_neg at hcon
          exact hc ⟨hcon.1, hcon.2⟩
        rw [getBlog_visible_eq h hv]
        simp [hc]
    · intro hv
      rw [getBlog_visible_eq h hv]

/-- Witness for C1 at concrete inputs: a stranger is forbidden on the demo
draft, while its author gets it back with the read count bumped. -/
theorem getBlog_access_policy_witness :
    (getBlog (some 2) 1 [demoBlogDraft]).1 = GetBlogResult.forbidden
    ∧ (getBlog (some 1) 1 [demoBlogDraft]).1 =
        GetBlogResult.ok { demoBlogDraft with read_count := 1 } :=
  ⟨(((getBlog_access_policy (some 2) 1 [demoBlogDraft]).2 demoBlogDraft
      (by decide)).1).mpr (by decide),
   ((getBlog_access_policy (some 1) 1 [demoBlogDraft]).2 demoBlogDraft
      (by decide)).2 (by decide)⟩

/-- C4: each successful fetch of a visible blog adds exactly 1 to its stored
read count and persists it, with no deduplication: n sequential fetches add
n, so starting from 0 they leave the count at n. -/
theorem getBlog_read_count_iter (requester : Option UserId) (id : BlogId)
    (s : Store) (blog : Blog) (h : findById s id = some blog)
    (hv : blog.state = BlogState.published ∨ requester = some blog.author) :
    ∀ n, findById (iterGetBlog requester id n s) id =
      some { blog with read_count := blog.read_count + n } := by
  intro n
  induction n generalizing s blog with
  | zero => simpa using h
  | succ n ih =>
    have hstep := getBlog_visible_eq h hv
    have hfind : findById (getBlog requester id s).2 id =
        some { blog with read_count := blog.read_count + 1 } := by
      rw [hstep]
      exact findById_saveBlog h _ rfl
    have hv' : ({ blog with read_count := blog.read_count + 1 } : Blog).state
        = BlogState.published
        ∨ requester = some ({ blog with read_count := blog.read_count + 1 } : Blog).author := hv
    have := ih _ _ hfind hv'
    have harith : blog.read_count + 1 + n = blog.read_count + (n + 1) := by omega
    calc findById (iterGetBlog requester id (n + 1) s) id
        = findById (iterGetBlog requester id n (getBlog requester id s).2) id := rfl
      _ = some { blog with read_count := blog.read_count + 1 + n } := this
      _ = some { blog with read_count := blog.read_count + (n + 1) } := by rw [harith]

/-- Witness for C4: three sequential fetches of the demo draft by its author
leave its stored read count at 3. -/
theorem getBlog_read_count_iter_witness :
    findById (iterGetBlog (some 1) 1 3 [demoBlogDraft]) 1 =
      some { demoBlogDraft with read_count := 3 } :=
  getBlog_read_count_iter (some 1) 1 [demoBlogDraft] demoBlogDraft
    (by decide) (by decide) 3

/-- C5: a state value outside the allow-list is rejected as bad request
before the fetch and the ownership check, for every requester and every
store (so also when the id does not exist), and the store is unchanged; for
an allow-listed value the not-found check comes first and then the
ownership check, each leaving the store unchanged on failure. -/
theorem updateBlogState_validation_order (requester : UserId) (id : BlogId)
    (newState : String) (s : Store) :
    (¬ (newState = "draft" ∨ newState = "published") →
      updateBlogState requester id newState s = (MutResult.badRequest, s))
    ∧ ((newState = "draft" ∨ newState = "published") →
        (findById s id = none →
          updateBlogState requester id newState s = (MutResult.notFound, s))
        ∧ (∀ blog, findById s id = some blog → blog.author ≠ requester →
            updateBlogState requester id newState s = (MutResult.forbidden, s))) := by
  refine ⟨fun hbad => ?_, fun hok => ⟨fun habs => ?_, fun blog hfind hown => ?_⟩⟩
  · simp [updateBlogState, hbad]
  · simp [updateBlogState, hok, habs]
  · simp [updateBlogState, hok, hfind, hown]

/-- Witness for C5 at concrete inputs: "archived" is rejected even for the
owner of an existing blog, with the store untouched; a valid value on an
absent id is not found; a valid value by a non-owner is forbidden. -/
theorem updateBlogState_validation_order_witness :
    updateBlogState 1 1 "archived" [demoBlogDraft] = (MutResult.badRequest, [demoBlogDraft])
    ∧ updateBlogState 1 99 "published" [demoBlogDraft] = (MutResult.notFound, [demoBlogDraft])
    ∧ updateBlogState 2 1 "published" [demoBlogDraft] = (MutResult.forbidden, [demoBlogDraft]) :=
  ⟨(updateBlogState_validation_order 1 1 "archived" [demoBlogDraft]).1 (by decide),
   ((updateBlogState_validation_order 1 99 "published" [demoBlogDraft]).2
      (by decide)).1 (by decide),
   ((updateBlogState_validation_order 2 1 "published" [demoBlogDraft]).2
      (by decide)).2 demoBlogDraft (by decide) (by decide)⟩

/-- Counterexample to C2: the author updates their draft with a patch whose
state field is "published"; the update succeeds and the persisted state has
changed, even though the patch went through the update operation and not
through the dedicated state transition. -/
theorem updateBlog_state_overwrite_cex :
    demoBlogDraft.state = BlogState.draft
    ∧ (findById (updateBlog 1 1 { emptyPatch with state := some "published" }
        [demoBlogDraft]).2 1).map Blog.state = some BlogState.published := by
  decide

/-- C2 amended: the update endpoint applies the patch wholesale after the
not-found and ownership checks — author, read_count and state present in the
patch overwrite the stored values (state is only checked against the enum by
the update validators); a field is preserved exactly when it is absent from
the patch; reading_time is carried over unchanged. -/
theorem updateBlog_applies_patch (requester : UserId) (id : BlogId)
    (p : BlogPatch) (s : Store) :
    (findById s id = none → updateBlog requester id p s = (MutResult.notFound, s))
    ∧ (∀ blog, findById s id = some blog →
        (blog.author ≠ requester → updateBlog requester id p s = (MutResult.forbidden, s))
        ∧ (blog.author = requester → validatePatch p = false →
            updateBlog requester id p s = (MutResult.badRequest, s))
        ∧ (blog.author = requester → validatePatch p = true →
            findById (updateBlog requester id p s).2 id = some (applyPatch blog p)
            ∧ (applyPatch blog p).author = p.author.getD blog.author
            ∧ (applyPatch blog p).read_count = p.read_count.getD blog.read_count
            ∧ (applyPatch blog p).state = (p.state.bind parseState).getD blog.state
            ∧ (applyPatch blog p).reading_time = blog.reading_time)) := by
  refine ⟨fun habs => ?_, fun blog hfind => ⟨fun hown => ?_, fun hown hbad => ?_,
    fun hown hval => ?_⟩⟩
  · simp [updateBlog, habs]
  · simp [updateBlog, hfind, hown]
  · simp [updateBlog, hfind, hown, hbad]
  · refine ⟨?_, rfl, rfl, rfl, rfl⟩
    have hupd : updateBlog requester id p s =
        (MutResult.ok (applyPatch blog p), saveBlog s (applyPatch blog p)) := by
      simp [updateBlog, hfind, hown, hval]
    rw [hupd]
    exact findById_saveBlog hfind _ rfl

/-- Witness for C2 amended at concrete inputs: the owner patches the demo
draft with a new title plus read_count 7; the stored result keeps the body
but takes the patched read_count. -/
theorem updateBlog_applies_patch_witness :
    findById (updateBlog 1 1
        { emptyPatch with title := some "t2", read_count := some 7 }
        [demoBlogDraft]).2 1 =
      some (applyPatch demoBlogDraft
        { emptyPatch with title := some "t2", read_count := some 7 }) :=
  (((updateBlog_applies_patch 1 1
      { emptyPatch with title := some "t2", read_count := some 7 }
      [demoBlogDraft]).2 demoBlogDraft (by decide)).2.2 (by decide) (by decide)).1

set_option maxRecDepth 100000 in
/-- C3 failing-input evaluation: after the author updates the 201-word blog
with a patch that replaces the body by the single word "tiny", the persisted
document carries the new body but still the old reading_time 2, while the
reading time of the new body is 1 — the update path bypasses the save hook
and leaves reading_time stale. -/
theorem updateBlog_stale_reading_time :
    readingTime longBody = 2
    ∧ readingTime "tiny" = 1
    ∧ (findById demoStoreLong 2).map Blog.reading_time = some 2
    ∧ (findById (updateBlog 1 2 { emptyPatch with body := some "tiny" }
        demoStoreLong).2 2).map Blog.body = some "tiny"
    ∧ (findById (updateBlog 1 2 { emptyPatch with body := some "tiny" }
        demoStoreLong).2 2).map Blog.reading_time = some 2 := by
  decide

theorem mem_applySort {o : Option SortKey} {l : List Blog} {b : Blog} :
    b ∈ applySort o l ↔ b ∈ l := by
  cases o with
  | none => exact Iff.rfl
  | some k => exact List.mem_insertionSort (fun a b => sortVal k b ≤ sortVal k a)

theorem mem_of_mem_listing_window {l : List Blog} {b : Blog} {n m : Nat}
    (h : b ∈ (l.drop n).take m) : b ∈ l :=
  List.mem_of_mem_drop (List.mem_of_mem_take h)

/-- Counterexample to C6: no user's name contains "zzz", yet the listing
filtered by author "zzz" returns both published blogs instead of zero
results — the author constraint is silently dropped when findOne misses. -/
theorem getPublishedBlogs_author_fallback_cex :
    ([demoUserAlice].find? (fun u => strContainsCI u.first_name "zzz"
        || strContainsCI u.last_name "zzz")) = none
    ∧ (getPublishedBlogs [demoUserAlice]
        { emptyPublicQuery with author := some "zzz" }
        [pubBlogA, pubBlogB]).data = [pubBlogB, pubBlogA] := by
  decide

/-- C6 amended: the author filter resolves through findOne to at most one
user (the first whose first or last name case-insensitively contains the
substring).  When no user matches, the listing is identical to the same
query without the author parameter (the fallback); when a user is found,
every returned blog is a published blog of exactly that user. -/
theorem getPublishedBlogs_author_filter (users : List User) (q : PublicQuery)
    (s : Store) :
    (∀ sub, present q.author = some sub →
        users.find? (fun u => strContainsCI u.first_name sub
          || strContainsCI u.last_name sub) = none →
        getPublishedBlogs users q s =
          getPublishedBlogs users { q with author := none } s)
    ∧ (∀ sub u, present q.author = some sub →
        users.find? (fun u' => strContainsCI u'.first_name sub
          || strContainsCI u'.last_name sub) = some u →
        ∀ b ∈ (getPublishedBlogs users q s).data,
          b.author = u.id ∧ b.state = BlogState.published) := by
  constructor
  · intro sub hsub hfind
    have haf : resolveAuthorFilter users q.author = none := by
      simp [resolveAuthorFilter, hsub, hfind]
    have haf' : resolveAuthorFilter users ({ q with author := none } : PublicQuery).author = none := by
      simp [resolveAuthorFilter, present]
    simp [getPublishedBlogs, haf, haf']
  · intro sub u hsub hfind b hb
    have haf : resolveAuthorFilter users q.author = some u.id := by
      simp [resolveAuthorFilter, hsub, hfind]
    simp only [getPublishedBlogs] at hb
    have h2 : b ∈ s.filter (publicQueryPred (resolveAuthorFilter users q.author)
        (present q.title) (present q.tags)) :=
      mem_applySort.mp (mem_of_mem_listing_window hb)
    have h3 := List.of_mem_filter h2
    rw [haf] at h3
    simp only [publicQueryPred, Bool.and_eq_true, beq_iff_eq] at h3
    exact ⟨h3.1.1.2, h3.1.1.1⟩

/-- Witness for C6 amended at concrete inputs: with no name containing
"qqq" the filtered listing collapses to the unfiltered one, and with the
filter "lic" resolving to the demo user, the returned blog is that user's
published blog. -/
theorem getPublishedBlogs_author_filter_witness :
    getPublishedBlogs [demoUserAlice] { emptyPublicQuery with author := some "qqq" } [pubBlogA]
      = getPublishedBlogs [demoUserAlice] { emptyPublicQuery with author := none } [pubBlogA]
    ∧ (pubBlogA.author = demoUserAlice.id ∧ pubBlogA.state = BlogState.published) :=
  ⟨(getPublishedBlogs_author_filter [demoUserAlice]
      { emptyPublicQuery with author := some "qqq" } [pubBlogA]).1 "qqq"
      (by decide) (by decide),
   (getPublishedBlogs_author_filter [demoUserAlice]
      { emptyPublicQuery with author := some "lic" } [pubBlogA, pubBlogB]).2 "lic"
      demoUserAlice (by decide) (by decide) pubBlogA (by decide)⟩

theorem sorted_applySort_some (k : SortKey) (l : List Blog) :
    sortedDescBy (sortVal k) (applySort (some k) l) := by
  haveI : IsTotal Blog (fun a b => sortVal k b ≤ sortVal k a) :=
    ⟨fun a b => Nat.le_total (sortVal k b) (sortVal k a)⟩
  haveI : IsTrans Blog (fun a b => sortVal k b ≤ sortVal k a) :=
    ⟨fun _ _ _ hab hbc => le_trans hbc hab⟩
  exact List.sorted_insertionSort (fun a b => sortVal k b ≤ sortVal k a) l

theorem sortedDescBy_window {f : Blog → Nat} {l : List Blog} (n m : Nat)
    (h : sortedDescBy f l) : sortedDescBy f ((l.drop n).take m) :=
  List.Pairwise.sublist ((List.take_sublist m (l.drop n)).trans (List.drop_sublist n l)) h

/-- Counterexample to C7: with the unknown order_by value "title" the
listing is returned in store order, which here is createdAt ascending — the
default createdAt-descending sort does not apply to invalid values. -/
theorem getPublishedBlogs_invalid_order_cex :
    (getPublishedBlogs [] { emptyPublicQuery with order_by := some "title" }
        [pubBlogA, pubBlogB]).data = [pubBlogA, pubBlogB]
    ∧ ¬ sortedDescBy (fun b => b.createdAt)
        (getPublishedBlogs [] { emptyPublicQuery with order_by := some "title" }
          [pubBlogA, pubBlogB]).data := by
  decide

/-- C7 amended: an allow-listed order_by sorts the page by that key
descending; an absent (or empty) order_by falls back to createdAt
descending; but an order_by outside the allow-list yields no sort at all —
the page comes back in store order, not in the default order.  There is no
ascending option anywhere. -/
theorem getPublishedBlogs_sort_policy (users : List User) (q : PublicQuery)
    (s : Store) :
    (∀ k, buildSortOption q.order_by = some k →
        sortedDescBy (sortVal k) (getPublishedBlogs users q s).data)
    ∧ (buildSortOption q.order_by = none →
        (getPublishedBlogs users q s).data =
          ((s.filter (publicQueryPred (resolveAuthorFilter users q.author)
              (present q.title) (present q.tags))).drop
            ((resolveParam q.page 1 - 1) * resolveParam q.limit 20).toNat).take
            (resolveParam q.limit 20).toNat)
    ∧ (present q.order_by = none → buildSortOption q.order_by = some SortKey.createdAt)
    ∧ (present q.order_by = some "read_count" → buildSortOption q.order_by = some SortKey.read_count)
    ∧ (present q.order_by = some "reading_time" → buildSortOption q.order_by = some SortKey.reading_time)
    ∧ (present q.order_by = some "createdAt" → buildSortOption q.order_by = some SortKey.createdAt)
    ∧ (∀ v, present q.order_by = some v → v ≠ "read_count" → v ≠ "reading_time" →
        v ≠ "createdAt" → buildSortOption q.order_by = none) := by
  refine ⟨fun k hk => ?_, fun hnone => ?_, fun h => ?_, fun h => ?_, fun h => ?_,
    fun h => ?_, fun v hv h1 h2 h3 => ?_⟩
  · simp only [getPublishedBlogs, hk]
    exact sortedDescBy_window _ _ (sorted_applySort_some k _)
  · simp [getPublishedBlogs, hnone, applySort]
  · simp [buildSortOption, h]
  · simp [buildSortOption, h]
  · simp [buildSortOption, h]
  · simp [buildSortOption, h]
  · simp [buildSortOption, hv, h1, h2, h3]

/-- Witness for C7 amended at concrete inputs: ordering by read_count sorts
the two demo blogs descending on that key. -/
theorem getPublishedBlogs_sort_policy_witness :
    sortedDescBy (sortVal SortKey.read_count)
      (getPublishedBlogs [] { emptyPublicQuery with order_by := some "read_count" }
        [pubBlogA, pubBlogB]).data :=
  (getPublishedBlogs_sort_policy [] { emptyPublicQuery with order_by := some "read_count" }
    [pubBlogA, pubBlogB]).1 SortKey.read_count (by decide)

theorem listPages_bounds (total : Nat) (L : Int) (hL : 0 < L) :
    (listPages total L - 1) * L < (total : Int)
    ∧ (total : Int) ≤ listPages total L * L := by
  have hb : (0 : ℚ) < (L : ℚ) := by exact_mod_cast hL
  constructor
  · have h1 : ((listPages total L : Int) : ℚ) < (total : ℚ) / (L : ℚ) + 1 := by
      simpa [listPages] using Int.ceil_lt_add_one ((total : ℚ) / (L : ℚ))
    have h2 : ((listPages total L : Int) : ℚ) - 1 < (total : ℚ) / (L : ℚ) := by
      linarith
    have h3 : (((listPages total L : Int) : ℚ) - 1) * (L : ℚ) < (total : ℚ) :=
      (lt_div_iff₀ hb).mp h2
    exact_mod_cast h3
  · have h1 : (total : ℚ) / (L : ℚ) ≤ ((listPages total L : Int) : ℚ) := by
      simpa [listPages] using Int.le_ceil ((total : ℚ) / (L : ℚ))
    have h3 : (total : ℚ) ≤ ((listPages total L : Int) : ℚ) * (L : ℚ) :=
      (div_le_iff₀ hb).mp h1
    exact_mod_cast h3

/-- Counterexample to C8: a negative page parameter is truthy in JS, so it
survives the parseInt(x) || 1 defaulting — the public listing echoes page
-3 instead of the claimed default 1. -/
theorem listing_negative_page_cex :
    (getPublishedBlogs [] { emptyPublicQuery with page := some (-3) } []).page = -3
    ∧ ((-3 : Int) ≠ 1) := by
  decide

/-- C8 amended: page defaults to 1 and limit to 20 only when the parameter
is absent, unparseable or zero (the JS-falsy cases); negative values are
kept as given.  The returned page of data is the (page-1)*limit offset
window of the sorted filtered list, count is the number of items in that
window (not the total), and for a positive limit the pages field is exactly
ceil(total/limit), characterized as the least integer p with
total ≤ p * limit. -/
theorem listing_pagination_policy (users : List User) (q : PublicQuery)
    (requester : UserId) (oq : OwnQuery) (s : Store) :
    ((q.page = none ∨ q.page = some 0) → (getPublishedBlogs users q s).page = 1)
    ∧ (∀ v, q.page = some v → v ≠ 0 → (getPublishedBlogs users q s).page = v)
    ∧ ((q.limit = none ∨ q.limit = some 0) → resolveParam q.limit 20 = 20)
    ∧ (∀ v, q.limit = some v → v ≠ 0 → resolveParam q.limit 20 = v)
    ∧ ((oq.page = none ∨ oq.page = some 0) → (getUserBlogs requester oq s).page = 1)
    ∧ (∀ v, oq.page = some v → v ≠ 0 → (getUserBlogs requester oq s).page = v)
    ∧ (getPublishedBlogs users q s).count = (getPublishedBlogs users q s).data.length
    ∧ (getUserBlogs requester oq s).count = (getUserBlogs requester oq s).data.length
    ∧ (getPublishedBlogs users q s).data =
        ((applySort (buildSortOption q.order_by)
            (s.filter (publicQueryPred (resolveAuthorFilter users q.author)
              (present q.title) (present q.tags)))).drop
          ((resolveParam q.page 1 - 1) * resolveParam q.limit 20).toNat).take
          (resolveParam q.limit 20).toNat
    ∧ (0 < resolveParam q.limit 20 →
        ((getPublishedBlogs users q s).pages - 1) * resolveParam q.limit 20
            < ((getPublishedBlogs users q s).total : Int)
        ∧ ((getPublishedBlogs users q s).total : Int)
            ≤ (getPublishedBlogs users q s).pages * resolveParam q.limit 20)
    ∧ (0 < resolveParam oq.limit 20 →
        ((getUserBlogs requester oq s).pages - 1) * resolveParam oq.limit 20
            < ((getUserBlogs requester oq s).total : Int)
        ∧ ((getUserBlogs requester oq s).total : Int)
            ≤ (getUserBlogs requester oq s).pages * resolveParam oq.limit 20) := by
  refine ⟨?_, ?_, ?_, ?_, ?_, ?_, rfl, rfl, rfl, ?_, ?_⟩
  · rintro (h | h) <;> simp [getPublishedBlogs, resolveParam, h]
  · intro v hv hne
    simp [getPublishedBlogs, resolveParam, hv, hne]
  · rintro (h | h) <;> simp [resolveParam, h]
  · intro v hv hne
    simp [resolveParam, hv, hne]
  · rintro (h | h) <;> simp [getUserBlogs, resolveParam, h]
  · intro v hv hne
    simp [getUserBlogs, resolveParam, hv, hne]
  · intro hL
    exact listPages_bounds _ _ hL
  · intro hL
    exact listPages_bounds _ _ hL

/-- Witness for C8 at concrete inputs: page 2 with limit 2 over three
published blogs echoes page 2, and the pages field is pinched between the
ceil bounds for limit 2 (so pages = 2). -/
theorem listing_pagination_policy_witness :
    (getPublishedBlogs [] { emptyPublicQuery with page := some 2, limit := some 2 }
        [pubBlogA, pubBlogB, pubBlogC]).page = 2
    ∧ (((getPublishedBlogs [] { emptyPublicQuery with page := some 2, limit := some 2 }
          [pubBlogA, pubBlogB, pubBlogC]).pages - 1) * 2
        < ((getPublishedBlogs [] { emptyPublicQuery with page := some 2, limit := some 2 }
          [pubBlogA, pubBlogB, pubBlogC]).total : Int)
       ∧ ((getPublishedBlogs [] { emptyPublicQuery with page := some 2, limit := some 2 }
          [pubBlogA, pubBlogB, pubBlogC]).total : Int)
        ≤ (getPublishedBlogs [] { emptyPublicQuery with page := some 2, limit := some 2 }
          [pubBlogA, pubBlogB, pubBlogC]).pages * 2) :=
  ⟨(listing_pagination_policy [] { emptyPublicQuery with page := some 2, limit := some 2 }
      0 { page := none, limit := none, state := none }
      [pubBlogA, pubBlogB, pubBlogC]).2.1 2 rfl (by decide),
   (listing_pagination_policy [] { emptyPublicQuery with page := some 2, limit := some 2 }
      0 { page := none, limit := none, state := none }
      [pubBlogA, pubBlogB, pubBlogC]).2.2.2.2.2.2.2.2.2.1 (by decide)⟩

end BloggingApi
